import Mathlib

/-!
Shallow embedding of `src/src/routes/+page.svelte` from
gloriatheima/gr-llava-workers-ai: the client-side image preparer
(`resizeImage`) and the submission controller (`submitForm`), together
with proofs of the specified properties.
-/

namespace Llava

/-- Constant `MAX_WIDTH` from the script (line 10). -/
def MAX_WIDTH : Nat := 800

/-- Constant `MAX_HEIGHT` from the script (line 11). -/
def MAX_HEIGHT : Nat := 800

/-- JavaScript rounding `Math.round (num / den)` for nonnegative arguments:
half-up rounding, `⌊num/den + 1/2⌋ = (2·num + den) / (2·den)` in
natural-number division. -/
def mathRound (num den : Nat) : Nat := (2 * num + den) / (2 * den)

/-- The dimension computation inside `resizeImage`
(`+page.svelte` lines 21–34): starting from the intrinsic `img.width`
and `img.height`, if `width > height` and `width > MAX_WIDTH` then
`height := Math.round(height * MAX_WIDTH / width)` and
`width := MAX_WIDTH`; otherwise if `height > MAX_HEIGHT` then
`width := Math.round(width * MAX_HEIGHT / height)` and
`height := MAX_HEIGHT`; otherwise both are unchanged. -/
def resizeDims (width height : Nat) : Nat × Nat :=
  if width > height then
    if width > MAX_WIDTH then
      (MAX_WIDTH, mathRound (height * MAX_WIDTH) width)
    else (width, height)
  else
    if height > MAX_HEIGHT then
      (mathRound (width * MAX_HEIGHT) height, MAX_HEIGHT)
    else (width, height)

/-- Step form of `resizeDims` on dimension pairs, for iterating preparation. -/
def resizeDimsStep (p : Nat × Nat) : Nat × Nat := resizeDims p.1 p.2

/-- Intrinsic raster dimensions of a decoded image (the `img.width`,
`img.height` read in the `onload` handler). -/
structure Raster where
  width : Nat
  height : Nat
deriving Repr, DecidableEq

/-- The transmittable file produced by `resizeImage`
(the `new File` built from the blob, the original name and the original type, line 43),
together with the dimensions at which the canvas was encoded. -/
structure PreparedFile where
  name : String
  type : String
  width : Nat
  height : Nat
deriving Repr, DecidableEq

/-- The raw uploaded file handed to `resizeImage`, with the environment
behaviour of the decode/encode pipeline it triggers: `decodesTo` is the
raster the `img.onload` handler observes (`none` when the bytes are not
a valid image, in which case `onload` never fires), and `encodeOk`
records whether `canvas.toBlob` delivers a non-null blob to its
callback. -/
structure RawInput where
  name : String
  type : String
  decodesTo : Option Raster
  encodeOk : Bool
deriving Repr, DecidableEq

/-- How the promise returned by `resizeImage` settles: it resolves with
a file, rejects, or never settles. -/
inductive PrepOutcome
  | resolved (f : PreparedFile)
  | rejected
  | pending
deriving Repr, DecidableEq

/-- Function `resizeImage` (`+page.svelte` lines 13–48): the returned promise's
executor only ever calls `resolve`, inside `img.onload` after the
dimension computation, and only when `canvas.toBlob` passes a non-null
blob (the `if (blob)` guard around `resolve`, lines 41–45). If the image
never decodes (`onload` never fires) or the blob is null, no callback
runs and the promise stays pending; there is no `reject` call and no
`throw` in the executor. -/
def resizeImage (inp : RawInput) : PrepOutcome :=
  match inp.decodesTo with
  | none => .pending
  | some img =>
    if inp.encodeOk then
      .resolved ⟨inp.name, inp.type, (resizeDims img.width img.height).1,
        (resizeDims img.width img.height).2⟩
    else .pending

/-- Mutable UI state of the page: `image`, `imageUrl`, `question`,
`isLoading`, `description` (`+page.svelte` lines 3–8; `isDragging` is
not touched by `submitForm` and is omitted).  `description` is
`Option String` because it starts as `null` and `result.description`
may be absent (`undefined`) in a parsed response body. -/
structure UIState where
  image : Option PreparedFile
  imageUrl : Option String
  question : String
  isLoading : Bool
  description : Option String
deriving Repr, DecidableEq

/-- Outcome of `await response.json()`: the body either fails to parse
(the promise rejects) or parses to an object whose `description` field
is a string or absent. -/
inductive JsonBody
  | malformed
  | parsed (description : Option String)
deriving Repr, DecidableEq

/-- Outcome of the awaited fetch of `/api/ask`: either a network-level
error (the promise rejects) or a response with an HTTP status code and
a body.  `submitForm` never reads the status. -/
inductive FetchOutcome
  | networkError
  | response (status : Nat) (body : JsonBody)
deriving Repr, DecidableEq

/-- Alert text shown on validation failure (`+page.svelte` line 87). -/
def validationAlert : String := "Please upload an image and ask a question."

/-- Fixed error string stored in `description` in the `catch` branch
(`+page.svelte` line 109). -/
def errorMessage : String := "An error occurred while processing your request."

/-- Assignment `isLoading = true` (`+page.svelte` line 91), run after
validation passes. -/
def beginSubmit (st : UIState) : UIState := { st with isLoading := true }

/-- Body of the `try`/`catch` (`+page.svelte` lines 96–109): on a
network error or a body that fails to parse, the thrown error is caught
and `description` is set to the fixed `errorMessage`; otherwise
`description = result.description` stores the parsed body's
`description` field.  The HTTP status is never inspected. -/
def applyResponse (st : UIState) (w : FetchOutcome) : UIState :=
  match w with
  | .networkError => { st with description := some errorMessage }
  | .response _ .malformed => { st with description := some errorMessage }
  | .response _ (.parsed d) => { st with description := d }

/-- Cleanup `finally` block: `isLoading = false` (`+page.svelte`
line 111). -/
def finishSubmit (st : UIState) : UIState := { st with isLoading := false }

/-- Result of one `submitForm` invocation: the final UI state, whether
the `fetch` call was issued, and the text of the blocking `alert` when
one was shown. -/
structure SubmitResult where
  state : UIState
  networkCalled : Bool
  alertShown : Option String
deriving Repr, DecidableEq

/-- Function `submitForm` (`+page.svelte` lines 85–113), parametrised by
the outcome `w` of the single `fetch`: `if (!image || !question)` shows
the alert and returns with no state change and no network call;
otherwise `isLoading = true`, the request is issued, the response (or
error) is applied to `description`, and `finally` clears `isLoading`. -/
def submitForm (st : UIState) (w : FetchOutcome) : SubmitResult :=
  if st.image.isNone || st.question == "" then
    { state := st, networkCalled := false, alertShown := some validationAlert }
  else
    { state := finishSubmit (applyResponse (beginSubmit st) w),
      networkCalled := true, alertShown := none }

/-- Trace of UI states after each mutation performed by one
`submitForm` invocation, in program order: on validation failure the
state is never touched; otherwise the state after `isLoading = true`
(line 91), after the `try`/`catch` body sets `description`, and after
the `finally` clears `isLoading`. -/
def submitTrace (st : UIState) (w : FetchOutcome) : List UIState :=
  if st.image.isNone || st.question == "" then [st]
  else
    [beginSubmit st,
     applyResponse (beginSubmit st) w,
     finishSubmit (applyResponse (beginSubmit st) w)]

/-- Sample UI state with an uploaded image and a non-empty question. -/
def readyState : UIState :=
  { image := some ⟨"cat.png", "image/png", 800, 600⟩,
    imageUrl := some "blob:cat",
    question := "What is in this photo?",
    isLoading := false,
    description := none }

/-- Rounding `Math.round(n * 800 / n)` returns exactly 800 for positive `n`
(the square-image case). -/
theorem mathRound_mul_self (n : Nat) (hn : 0 < n) : mathRound (n * 800) n = 800 := by
  unfold mathRound
  exact Nat.div_eq_of_lt_le (by omega) (by omega)

/-- Rounding `Math.round(a * 800 / b)` never exceeds 800 when `a ≤ b` and
`b` is positive. -/
theorem mathRound_le_800 (a b : Nat) (hab : a ≤ b) (hb : 0 < b) :
    mathRound (a * 800) b ≤ 800 := by
  unfold mathRound
  have hlt : 2 * (a * 800) + b < 801 * (2 * b) := by omega
  have := (Nat.div_lt_iff_lt_mul (by omega : 0 < 2 * b)).mpr hlt
  omega

/-- C1: the resize dimension computation matches the spec case analysis:
if `width ≥ height` and `width > 800` the output is
`(800, round(height·800/width))`; if `height > width` and `height > 800`
the output is `(round(width·800/height), 800)`.  The square case
`width = height > 800` falls into the code's else branch but still
yields `(800, 800)`, agreeing with the first clause. -/
theorem resizeDims_case_analysis (w h : Nat) :
    (h ≤ w → 800 < w → resizeDims w h = (800, mathRound (h * 800) w)) ∧
    (w < h → 800 < h → resizeDims w h = (mathRound (w * 800) h, 800)) := by
  constructor
  · intro hge hbig
    rcases Nat.lt_or_ge h w with hlt | hge2
    · simp only [resizeDims, MAX_WIDTH, if_pos hlt, if_pos hbig]
    · have heq : h = w := Nat.le_antisymm hge hge2
      subst heq
      unfold resizeDims MAX_WIDTH MAX_HEIGHT
      rw [if_neg (lt_irrefl h), if_pos hbig, mathRound_mul_self h (by omega)]
  · intro hlt hbig
    have hnot : ¬ h < w := by omega
    simp only [resizeDims, MAX_WIDTH, MAX_HEIGHT, if_neg hnot, if_pos hbig]

/-- Witness for C1 at the spec's concrete scenarios: a 1600×1200 source
resizes to 800 wide and a 1200×1600 source to 800 tall. -/
theorem resizeDims_case_analysis_witness :
    resizeDims 1600 1200 = (800, mathRound (1200 * 800) 1600) ∧
    resizeDims 1200 1600 = (mathRound (1200 * 800) 1600, 800) :=
  ⟨(resizeDims_case_analysis 1600 1200).1 (by decide) (by decide),
   (resizeDims_case_analysis 1200 1600).2 (by decide) (by decide)⟩

/-- C2: when both source dimensions are at most 800 the computed
dimensions equal the input dimensions, and iterating the preparation
step any number of times leaves them unchanged. -/
theorem resizeDims_no_upscale_idempotent (w h : Nat) (hw : w ≤ 800) (hh : h ≤ 800) :
    resizeDims w h = (w, h) ∧ ∀ n : Nat, resizeDimsStep^[n] (w, h) = (w, h) := by
  have hfix : resizeDims w h = (w, h) := by
    unfold resizeDims MAX_WIDTH MAX_HEIGHT
    split
    · rw [if_neg (by omega)]
    · rw [if_neg (by omega)]
  have hfix2 : resizeDimsStep (w, h) = (w, h) := hfix
  exact ⟨hfix, fun n => Function.iterate_fixed hfix2 n⟩

/-- Witness for C2 at the spec's 500×500 scenario, iterated three times. -/
theorem resizeDims_no_upscale_idempotent_witness :
    resizeDims 500 500 = (500, 500) ∧ resizeDimsStep^[3] (500, 500) = (500, 500) :=
  ⟨(resizeDims_no_upscale_idempotent 500 500 (by decide) (by decide)).1,
   (resizeDims_no_upscale_idempotent 500 500 (by decide) (by decide)).2 3⟩

/-- C9: for every source dimensions, both computed output dimensions are
at most 800, including under the rounding rule. -/
theorem resizeDims_bounded (w h : Nat) :
    (resizeDims w h).1 ≤ 800 ∧ (resizeDims w h).2 ≤ 800 := by
  unfold resizeDims MAX_WIDTH MAX_HEIGHT
  split_ifs with hgt hbig hbig2
  · exact ⟨Nat.le_refl 800, mathRound_le_800 h w (by omega) (by omega)⟩
  · exact ⟨show w ≤ 800 by omega, show h ≤ 800 by omega⟩
  · exact ⟨mathRound_le_800 w h (by omega) (by omega), Nat.le_refl 800⟩
  · exact ⟨show w ≤ 800 by omega, show h ≤ 800 by omega⟩

/-- C7: whenever preparation resolves, the resolved transmittable file
carries the same media type and the same file name as the original
input file. -/
theorem resizeImage_preserves_name_type (inp : RawInput) (f : PreparedFile)
    (hres : resizeImage inp = .resolved f) :
    f.name = inp.name ∧ f.type = inp.type := by
  obtain ⟨nm, ty, dec, enc⟩ := inp
  cases dec with
  | none => exact PrepOutcome.noConfusion hres
  | some img =>
    cases enc with
    | false => exact PrepOutcome.noConfusion hres
    | true =>
      injection hres with h
      subst h
      exact ⟨rfl, rfl⟩

/-- Witness for C7 at a concrete decodable input. -/
theorem resizeImage_preserves_name_type_witness :
    resizeImage ⟨"dog.jpg", "image/jpeg", some ⟨1600, 1200⟩, true⟩ =
      .resolved ⟨"dog.jpg", "image/jpeg", 800, 600⟩ ∧
    ("dog.jpg" : String) = "dog.jpg" ∧ ("image/jpeg" : String) = "image/jpeg" := by
  have h : resizeImage ⟨"dog.jpg", "image/jpeg", some ⟨1600, 1200⟩, true⟩ =
      .resolved ⟨"dog.jpg", "image/jpeg", 800, 600⟩ := by decide
  exact ⟨h, resizeImage_preserves_name_type _ _ h⟩

/-- C8: the promise returned by `resizeImage` never rejects — no
exception is observable by the caller: on an input that never decodes it
stays pending (never resolves), and on an input whose decode and encode
both complete it resolves with the prepared file. -/
theorem resizeImage_never_rejects (inp : RawInput) :
    resizeImage inp ≠ .rejected ∧
    (inp.decodesTo = none → resizeImage inp = .pending) ∧
    (∀ r, inp.decodesTo = some r → inp.encodeOk = true →
      resizeImage inp = .resolved ⟨inp.name, inp.type,
        (resizeDims r.width r.height).1, (resizeDims r.width r.height).2⟩) := by
  obtain ⟨nm, ty, dec, enc⟩ := inp
  refine ⟨?_, ?_, ?_⟩
  · cases dec with
    | none => exact fun h => PrepOutcome.noConfusion h
    | some img =>
      cases enc with
      | false => exact fun h => PrepOutcome.noConfusion h
      | true => exact fun h => PrepOutcome.noConfusion h
  · intro h
    subst h
    rfl
  · intro r h henc
    subst h
    subst henc
    rfl

/-- Witness for C8: a malformed upload leaves the promise pending and a
well-formed 1600×1200 upload resolves with the prepared 800×600 file. -/
theorem resizeImage_never_rejects_witness :
    resizeImage ⟨"junk.bin", "application/pdf", none, true⟩ = .pending ∧
    resizeImage ⟨"pic.png", "image/png", some ⟨1600, 1200⟩, true⟩ =
      .resolved ⟨"pic.png", "image/png", 800, 600⟩ := by
  constructor
  · exact (resizeImage_never_rejects ⟨"junk.bin", "application/pdf", none, true⟩).2.1 rfl
  · have h := (resizeImage_never_rejects ⟨"pic.png", "image/png", some ⟨1600, 1200⟩, true⟩).2.2
      ⟨1600, 1200⟩ rfl rfl
    rw [h]
    have h600 : resizeDims 1600 1200 = (800, 600) := by decide
    rw [h600]

/-- Helper: with an image present and a non-empty question, the
validation guard of `submitForm` is false. -/
theorem submit_guard_false (st : UIState) (himg : st.image.isSome = true)
    (hq : st.question ≠ "") : ¬ ((st.image.isNone || st.question == "") = true) := by
  intro hcond
  rw [Bool.or_eq_true] at hcond
  rcases hcond with h | h
  · rw [Option.isNone_iff_eq_none] at h
    rw [h] at himg
    cases himg
  · exact hq (beq_iff_eq.mp h)

/-- C4: invoking submit with a null image or an empty question shows
the blocking validation alert, makes no network call and leaves every
state variable unchanged. -/
theorem submitForm_validation_noop (st : UIState) (w : FetchOutcome)
    (hfail : st.image = none ∨ st.question = "") :
    submitForm st w = ⟨st, false, some validationAlert⟩ := by
  have hcond : (st.image.isNone || st.question == "") = true := by
    rcases hfail with h | h
    · rw [h]; rfl
    · rw [Bool.or_eq_true]
      right
      rw [h]
      decide
  unfold submitForm
  rw [if_pos hcond]

/-- Witness for C4: submitting with no image alerts and changes
nothing. -/
theorem submitForm_validation_noop_witness :
    submitForm { readyState with image := none } .networkError =
      ⟨{ readyState with image := none }, false, some validationAlert⟩ :=
  submitForm_validation_noop { readyState with image := none } .networkError (Or.inl rfl)

/-- C3 (amended): on a network error or a response body that fails to
parse, the displayed answer is the single fixed error string; the HTTP
status is never read, so any response whose body parses as JSON — of any
status — stores its description field as the answer instead. -/
theorem submitForm_failure_fixed_string (st : UIState)
    (himg : st.image.isSome = true) (hq : st.question ≠ "") :
    (∀ w : FetchOutcome, (w = .networkError ∨ ∃ s, w = .response s .malformed) →
      (submitForm st w).state.description = some errorMessage) ∧
    ∀ (s : Nat) (d : Option String),
      (submitForm st (.response s (.parsed d))).state.description = d := by
  have hg := submit_guard_false st himg hq
  constructor
  · intro w hw
    rcases hw with h | ⟨s, h⟩ <;>
      (subst h; unfold submitForm; rw [if_neg hg]; rfl)
  · intro s d
    unfold submitForm
    rw [if_neg hg]
    rfl

/-- Witness for C3 (amended): network error and malformed body both
display the fixed error string; a parsed body with no description field
stores the absent value. -/
theorem submitForm_failure_fixed_string_witness :
    (submitForm readyState .networkError).state.description = some errorMessage ∧
    (submitForm readyState (.response 200 .malformed)).state.description = some errorMessage ∧
    (submitForm readyState (.response 404 (.parsed none))).state.description = none :=
  ⟨(submitForm_failure_fixed_string readyState rfl (by decide)).1 .networkError (Or.inl rfl),
   (submitForm_failure_fixed_string readyState rfl (by decide)).1
     (.response 200 .malformed) (Or.inr ⟨200, rfl⟩),
   (submitForm_failure_fixed_string readyState rfl (by decide)).2 404 none⟩

/-- C3 counterexample: a response with non-success HTTP status 500 whose
body nevertheless parses as a JSON object stores that body's description
field verbatim as the answer — not the fixed error string — because
`submitForm` never inspects `response.ok` or `response.status`. -/
theorem submitForm_status_counterexample :
    (submitForm readyState
        (.response 500 (.parsed (some "Internal Server Error")))).state.description
      = some "Internal Server Error" ∧
    (some "Internal Server Error" : Option String) ≠ some errorMessage := by
  constructor
  · rfl
  · decide

/-- C5: the loading flag follows idle → loading → idle: when validation
passes, some intermediate state of the submit trace has the flag true,
and the final state — the last element of the trace — has it false on
every completion path. -/
theorem submitForm_loading_lifecycle (st : UIState) (w : FetchOutcome)
    (himg : st.image.isSome = true) (hq : st.question ≠ "") :
    (∃ mid ∈ submitTrace st w, mid.isLoading = true) ∧
    (submitTrace st w).getLast? = some (submitForm st w).state ∧
    (submitForm st w).state.isLoading = false := by
  have hg := submit_guard_false st himg hq
  refine ⟨⟨beginSubmit st, ?_, rfl⟩, ?_, ?_⟩
  · unfold submitTrace
    rw [if_neg hg]
    exact List.mem_cons_self _ _
  · unfold submitTrace submitForm
    rw [if_neg hg, if_neg hg]
    rfl
  · unfold submitForm
    rw [if_neg hg]
    rfl

/-- Witness for C5 at a concrete ready state and a network failure. -/
theorem submitForm_loading_lifecycle_witness :
    (∃ mid ∈ submitTrace readyState .networkError, mid.isLoading = true) ∧
    (submitTrace readyState .networkError).getLast? =
      some (submitForm readyState .networkError).state ∧
    (submitForm readyState .networkError).state.isLoading = false :=
  submitForm_loading_lifecycle readyState .networkError rfl (by decide)

/-- C6: on a successful submit whose response parses as a JSON object
with a description field, the displayed answer equals exactly that
field's value. -/
theorem submitForm_success_description (st : UIState) (s : Nat) (d : String)
    (himg : st.image.isSome = true) (hq : st.question ≠ "")
    (_hs1 : 200 ≤ s) (_hs2 : s < 300) :
    (submitForm st (.response s (.parsed (some d)))).state.description = some d := by
  unfold submitForm
  rw [if_neg (submit_guard_false st himg hq)]
  rfl

/-- Witness for C6 at the spec scenario: body with description field
value a cat displays exactly that string. -/
theorem submitForm_success_description_witness :
    (submitForm readyState (.response 200 (.parsed (some "a cat")))).state.description
      = some "a cat" :=
  submitForm_success_description readyState 200 "a cat" rfl (by decide)
    (by decide) (by decide)

/-- C10: `submitForm` mutates only the loading flag and the answer text:
on every path the image reference, the preview URL and the question are
unchanged. -/
theorem submitForm_frame (st : UIState) (w : FetchOutcome) :
    (submitForm st w).state.image = st.image ∧
    (submitForm st w).state.imageUrl = st.imageUrl ∧
    (submitForm st w).state.question = st.question := by
  unfold submitForm
  split
  · exact ⟨rfl, rfl, rfl⟩
  · rcases w with _ | ⟨s, _ | d⟩ <;> exact ⟨rfl, rfl, rfl⟩

end Llava
